import Mathlib

set_option maxRecDepth 100000

/-!
Shallow embedding of the pynetinstall flashing engine.

Source files embedded here:
  * `pynetinstall/flash.py` — the `Flasher` protocol engine (`run`, `do`,
    `do_file`, `do_files`, `update_file_bar`) and the `FlashInterface`
    runner (`flash_once`, `flash_until_stopped`).
  * `netinstall/plugins/simple.py` — the bundled default file provider
    (`Plugin.get_files`).

The Transport (`pynetinstall/network.py`, a `UDPConnection`) is not part of
the sources; following the spec's Transport contract it is modelled as a
scripted list of read results: each `conn.read` pops the next entry, an
entry `none` meaning "no frame received", an entry `some (raw, st)` meaning
a raw response frame together with the state pair the transport extracted
from it.  `conn.write` is recorded as an event.  Every observable action of
the engine (each write with its payload, each transport read, and each
invocation of `Flasher.do` with its expected-response argument) is recorded
in an event trace so that theorems can speak about the exact sequence of
protocol steps.
-/

deriving instance DecidableEq for Except

/-- Byte strings are modelled as lists of natural numbers (the byte values). -/
abbrev Bytes := List Nat

/-- The `Flasher.state` pair: Python list `[state[0], state[1]]` is modelled
as the pair `(state[0], state[1])`. -/
abbrev SState := Nat × Nat

/-- Turn an ASCII string literal from the source into its list of byte values. -/
def strB (s : String) : Bytes := s.toList.map Char.toNat

/-- Exception classes raised by the embedded code.  `abortFlashing` and
`fatalError` are the classes defined at the top of `flash.py`;
`fileNotReceived` is the bare `Exception("File was not received properly")`
of `Flasher.do_file`; `missingArgument` and `fileExistsError` come from
`plugins/simple.py`; `malformedFrame` is the frame-codec failure of the
spec; `outOfFuel` is an artefact marking that the loop fuel ran out (the
Python `while True` loop can diverge, e.g. when the file is shorter than
the declared size). -/
inductive Err where
  | abortFlashing
  | fatalError
  | fileNotReceived
  | malformedFrame
  | missingArgument
  | fileExistsError
  | outOfFuel
deriving DecidableEq, Repr

/-- Observable events of one session. -/
inductive Ev where
  | wr (data : Bytes)
  | rd
  | step (data : Bytes) (expect : Option Bytes)
deriving DecidableEq, Repr

/-- One result of `conn.read`: `none` = no frame received, otherwise the
raw frame bytes and the state pair the transport decoded from it. -/
abbrev Resp := Option (Bytes × SState)

/-- The mutable state of a `Flasher` object together with the scripted
transport and the recorded event trace. -/
structure FS where
  st : SState
  script : List Resp
  events : List Ev
deriving DecidableEq, Repr

/-- `self.conn.read(...)`: pop the next scripted transport answer
(an empty script behaves as a timeout, i.e. no frame). -/
def connRead (s : FS) : Resp × FS :=
  match s.script with
  | [] => (none, { s with events := s.events ++ [Ev.rd] })
  | r :: rest => (r, { s with script := rest, events := s.events ++ [Ev.rd] })

/-- `self.conn.write(data, self.state, self.info.mac)`: record the write. -/
def connWrite (data : Bytes) (s : FS) : FS :=
  { s with events := s.events ++ [Ev.wr data] }

/-- Protocol tokens, literal byte strings from `flash.py`. -/
def offr : Bytes := strB "OFFR\n\n"

def yack : Bytes := strB "YACK\n"

def strt : Bytes := strB "STRT"

def retr : Bytes := strB "RETR"

def wtrm : Bytes := strB "WTRM"

def fileNL : Bytes := strB "FILE\n"

def termMsg : Bytes := strB "TERM\nInstallation successful\n"

/-- `bytes(f"FILE\n{name}\n{str(size)}\n", "utf-8")` of `Flasher.do_files`. -/
def fileHeader (name : String) (size : Nat) : Bytes :=
  strB ("FILE\n" ++ name ++ "\n" ++ toString size ++ "\n")

/-- `Flasher.do(data, response)`.  Mirrors flash.py lines 226-260:
`state[1] += 1`; `write(data)`; `state[0] += 1`; if no response is expected
return `True`; otherwise `wait()` (one discarded transport read), then
`read()`; `None` raises `AbortFlashing`; otherwise the state pair is
replaced wholesale by the frame's state and the payload `res[14:]` is
compared with the expected response (`True` on match, fall-through `None`
on mismatch).  (The Python method is named `do`, a reserved word in Lean.)
An `Ev.step` event records each invocation. -/
def doStep (data : Bytes) (expect : Option Bytes) (s0 : FS) :
    Except Err (Option Bool) × FS :=
  let s1 : FS := { s0 with events := s0.events ++ [Ev.step data expect] }
  let s2 : FS := { s1 with st := (s1.st.1, s1.st.2 + 1) }
  let s3 : FS := connWrite data s2
  let s4 : FS := { s3 with st := (s3.st.1 + 1, s3.st.2) }
  match expect with
  | none => (Except.ok (some true), s4)
  | some resp =>
    let s5 : FS := (connRead s4).2
    match connRead s5 with
    | (none, s6) => (Except.error Err.abortFlashing, s6)
    | (some (res, newSt), s6) =>
      let s7 : FS := { s6 with st := newSt }
      if resp = res.drop 14 then (Except.ok (some true), s7)
      else (Except.ok none, s7)

/-- The `while True` loop of `Flasher.do_file` (flash.py lines 277-307),
with explicit fuel (the Python loop diverges when the file is shorter than
the declared size).  Each iteration: `state[1] += 1`; `data =
file.read(MAX_BYTES)` with `MAX_BYTES = 1024`; `write(data)`;
`state[0] += 1`; `wait()` (one discarded read); `file_pos += len(data)`;
once `file_pos >= max_pos` one more blocking read is performed — `None`
raises `AbortFlashing`, a payload equal to `RETR` returns `True`, anything
else raises the bare `Exception` (`fileNotReceived`); otherwise sleep and
loop. -/
def doFileLoop (fuel : Nat) (file : Bytes) (max_pos file_pos : Nat) (s : FS) :
    Except Err Bool × FS :=
  match fuel with
  | 0 => (Except.error Err.outOfFuel, s)
  | fuel + 1 =>
    let s1 : FS := { s with st := (s.st.1, s.st.2 + 1) }
    let data := file.take 1024
    let rest := file.drop 1024
    let s2 : FS := connWrite data s1
    let s3 : FS := { s2 with st := (s2.st.1 + 1, s2.st.2) }
    let s4 : FS := (connRead s3).2
    let pos := file_pos + data.length
    if pos ≥ max_pos then
      match connRead s4 with
      | (none, s5) => (Except.error Err.abortFlashing, s5)
      | (some (res, newSt), s5) =>
        let s6 : FS := { s5 with st := newSt }
        if retr = res.drop 14 then (Except.ok true, s6)
        else (Except.error Err.fileNotReceived, s6)
    else doFileLoop fuel rest max_pos pos s4

/-- `Flasher.do_file(file, max_pos, file_name)`: the loop starting at
`file_pos = 0`.  The file object is modelled as its byte content; the
`file_name` argument is unused by the Python body (the progress-bar call
is commented out in the source). -/
def do_file (fuel : Nat) (file : Bytes) (max_pos : Nat) (s : FS) :
    Except Err Bool × FS :=
  doFileLoop fuel file max_pos 0 s

/-- Sequencing of two embedded statements: Python exceptions propagate. -/
def chain {α β : Type} (r : Except Err α × FS)
    (f : α → FS → Except Err β × FS) : Except Err β × FS :=
  match r with
  | (Except.ok a, s) => f a s
  | (Except.error e, s) => (Except.error e, s)

/-- A file reference as returned by the plugin and resolved by
`resolve_file_data`'s `BufferedReader` branch: a name (`basename`) and the
byte content (so its resolved size is the content length, as
`os.path.getsize` reports for the backing file). -/
abbrev FileRef := String × Bytes

/-- `Flasher.do_files` (flash.py lines 309-335).  The plugin call
`self.plugin.get_files(self.info)` is a parameter: either the pair
`(npk, rsc)` it returned or the exception it raised.  `npk is None` raises
`AbortFlashing`; the firmware header is sent and the firmware transferred,
then an empty "done" step expecting `RETR`; if `rsc` is truthy the config
is sent under the fixed name `autorun.scr`; finally one more empty "done"
step expecting `RETR` is executed unconditionally (it sits outside the
`if rsc:` block in the source). -/
def do_files (fuel : Nat) (files : Except Err (Option FileRef × Option FileRef))
    (s0 : FS) : Except Err Unit × FS :=
  match files with
  | Except.error e => (Except.error e, s0)
  | Except.ok (none, _) => (Except.error Err.abortFlashing, s0)
  | Except.ok (some npk, rsc) =>
    chain (doStep (fileHeader npk.1 npk.2.length) (some retr) s0) fun _ s1 =>
    chain (do_file fuel npk.2 npk.2.length s1) fun _ s2 =>
    chain (doStep [] (some retr) s2) fun _ s3 =>
    chain (match rsc with
           | some r =>
             chain (doStep (fileHeader "autorun.scr" r.2.length) (some retr) s3)
               fun _ s4 => do_file fuel r.2 r.2.length s4
           | none => (Except.ok true, s3)) fun _ s5 =>
    chain (doStep [] (some retr) s5) fun _ s6 =>
    (Except.ok (), s6)

/-- `Flasher.run(info)` (flash.py lines 184-224): reset `state` to
`[0, 0]`, offer (`OFFR\n\n` expecting `YACK\n`), format (empty expecting
`STRT`), spacer (empty expecting `RETR`), `do_files()`, finalize (`FILE\n`
expecting `WTRM`), terminate (`TERM\n...` fire-and-forget).  The
`except OSError` wrapper around the offer concerns transport socket
errors, which the scripted transport model never raises. -/
def Flasher.run (fuel : Nat)
    (files : Except Err (Option FileRef × Option FileRef)) (s0 : FS) :
    Except Err Unit × FS :=
  let s1 : FS := { s0 with st := (0, 0) }
  chain (doStep offr (some yack) s1) fun _ s2 =>
  chain (doStep [] (some strt) s2) fun _ s3 =>
  chain (doStep [] (some retr) s3) fun _ s4 =>
  chain (do_files fuel files s4) fun _ s5 =>
  chain (doStep fileNL (some wtrm) s5) fun _ s6 =>
  chain (doStep termMsg none s6) fun _ s7 =>
  (Except.ok (), s7)

/-- Number of iterations the `do_file` loop performs on a file of `n`
bytes whose declared size equals `n` (each iteration sends one chunk of at
most 1024 bytes; a zero-byte file still performs one iteration sending
empty data). -/
def iters (n : Nat) : Nat :=
  if n = 0 then 1 else (n + 1023) / 1024

/-- The event trace one `do_file` call appends: per interior iteration a
chunk write and the drain read, and in the final iteration the chunk
write, the drain read and the blocking confirmation read. -/
def chunkEvs (file : Bytes) : List Ev :=
  if file.length ≤ 1024 then [Ev.wr file, Ev.rd, Ev.rd]
  else Ev.wr (file.take 1024) :: Ev.rd :: chunkEvs (file.drop 1024)
termination_by file.length
decreasing_by simp; omega

/-- Project the `Flasher.do` invocations (data sent, expected response)
out of an event trace. -/
def stepEvents (evs : List Ev) : List (Bytes × Option Bytes) :=
  evs.filterMap fun e => match e with
    | Ev.step d x => some (d, x)
    | _ => none

/-- Project the written payloads out of an event trace. -/
def wrDatas (evs : List Ev) : List Bytes :=
  evs.filterMap fun e => match e with
    | Ev.wr d => some d
    | _ => none

/-- Count the transport reads in an event trace. -/
def rdCount (evs : List Ev) : Nat :=
  (evs.filter fun e => match e with
    | Ev.rd => true
    | _ => false).length

/-- A generic response frame whose payload (`raw[14:]`) is `RETR`: fourteen
header bytes followed by the token. -/
def retrFrame : Bytes := List.replicate 14 0 ++ retr

/-- A scripted transport entry delivering `retrFrame` with state `(0, 0)`. -/
def retrAck : Resp := some (retrFrame, (0, 0))

/-- Transport script feeding one `do_file` call on a file of `len` bytes:
one drain answer per iteration (their content is discarded) and the final
confirmation frame. -/
def fileScript (len : Nat) : List Resp := List.replicate (iters len) none ++ [retrAck]

/-- Transport script for one whole successful `Flasher.run` session:
two entries (drain + response) for each of offer, format, spacer and the
firmware header, the firmware transfer, the first done step, optionally the
config header and transfer, the unconditional done step, and the finalize
step; the terminate step reads nothing. -/
def sessionScript (nLen : Nat) (rLen : Option Nat) : List Resp :=
  [none, retrAck, none, retrAck, none, retrAck, none, retrAck] ++ fileScript nLen
    ++ [none, retrAck]
    ++ (match rLen with
        | some r => [none, retrAck] ++ fileScript r
        | none => []) ++ [none, retrAck] ++ [none, retrAck]

/-- `Plugin.get_files` of `netinstall/plugins/simple.py` (lines 11-32).
The configuration values `config["pynetinstall"]["firmware"]` and
`config["pynetinstall"]["config"]` are the `firmw` and `conf` strings
(Python truthiness of a string is non-emptiness); the filesystem is the
list of paths for which `os.path.exists` holds.  An empty value raises
`MissingArgument`, a non-existing path raises `FileExistsError`, and on
success both files are opened and returned — the config member of the
returned pair is never absent. -/
def get_files (fsys : List String) (firmw conf : String) :
    Except Err (String × String) :=
  if firmw ≠ "" then
    if ¬ (firmw ∈ fsys) then Except.error Err.fileExistsError
    else
      if conf ≠ "" then
        if ¬ (conf ∈ fsys) then Except.error Err.fileExistsError
        else Except.ok (firmw, conf)
      else Except.error Err.missingArgument
  else Except.error Err.missingArgument

/-- One iteration's worth of input to the continuous runner: whether
`get_interface_info` returned a truthy interface, whether the `Flasher`
constructor succeeds (`load_config` raises `FatalError` otherwise), the
result of the plugin's `get_files` call, the transport script for the
session, and the loop fuel for `do_file`. -/
structure Sess where
  iface : Bool
  cfgOk : Bool
  files : Except Err (Option FileRef × Option FileRef)
  script : List Resp
  fuel : Nat
deriving Repr

/-- The body of one `flash_until_stopped` iteration up to its exception:
skip everything when no interface is found; a failing `Flasher`
construction raises `FatalError`; otherwise `Flasher.run` is executed on a
fresh flasher state. -/
def runSess (x : Sess) : Except Err Unit :=
  if x.iface then
    if x.cfgOk then (Flasher.run x.fuel x.files ⟨(0, 0), x.script, []⟩).1
    else Except.error Err.fatalError
  else Except.ok ()

/-- How the runner loop ends: `running` means the scripted iterations were
exhausted with the loop still alive (the real loop blocks forever waiting
for the next board), `fatalStop` is the `except FatalError` return, and
`uncaught e` is an exception that matches neither `except` clause and
propagates out of the loop. -/
inductive Exit where
  | running
  | fatalStop
  | uncaught (e : Err)
deriving DecidableEq, Repr

/-- `FlashInterface.flash_until_stopped` (flash.py lines 473-497) over a
list of scripted iterations.  The inner `except AbortFlashing` logs and
continues; the outer `except FatalError` returns; any other exception
propagates; the `finally` closes the connection on every exit of the
loop.  Result: the exit kind and whether `self.connection.close()` ran. -/
def flash_until_stopped : List Sess → Exit × Bool
  | [] => (Exit.running, false)
  | x :: rest =>
    match runSess x with
    | Except.ok _ => flash_until_stopped rest
    | Except.error Err.abortFlashing => flash_until_stopped rest
    | Except.error Err.fatalError => (Exit.fatalStop, true)
    | Except.error e => (Exit.uncaught e, true)

/-- `FlashInterface.flash_once` (flash.py lines 464-471): construct a
`Flasher`, run it, then close the connection.  There is no `try/finally`:
`close()` is only reached when construction and `run` both succeed.
Result: the outcome and whether `close()` ran. -/
def flash_once (x : Sess) : Except Err Unit × Bool :=
  match (if x.cfgOk then (Flasher.run x.fuel x.files ⟨(0, 0), x.script, []⟩).1
         else Except.error Err.fatalError) with
  | Except.ok _ => (Except.ok (), true)
  | Except.error e => (Except.error e, false)

/-- Modelled from the spec: the frame codec's `decode` lives in
`pynetinstall/network.py`, which is not among the sources; per spec §4.1 it
fails with `MalformedFrame` when the raw frame is shorter than 14 bytes and
otherwise returns the 4-byte state field `raw[10:14]` and the payload
`raw[14:]` (the offsets match the response-layout comment and the
`res[14:]` slicing in `Flasher.do`). -/
def decode (raw : Bytes) : Except Err (Bytes × Bytes) :=
  if raw.length < 14 then Except.error Err.malformedFrame
  else Except.ok ((raw.drop 10).take 4, raw.drop 14)

/-- Python's `round`: nearest integer, ties to even (used on exact
rationals here in place of floats). -/
def pyRound (q : Rat) : Int :=
  let f := q.floor
  let r := q - (f : Rat)
  if r < 1 / 2 then f
  else if 1 / 2 < r then f + 1
  else if f % 2 = 0 then f else f + 1

/-- `Flasher.update_file_bar(curr_pos, max_pos, name, leng)` (flash.py
lines 398-423).  `proz = round((curr_pos/max_pos) * 100)` raises
`ZeroDivisionError` when `max_pos == 0`, modelled as `none`; otherwise
`done = round((leng/100) * proz)`, the bar is `done` many `>` followed by
`leng - done` spaces (Python's `range` of a negative number is empty, as
is truncated `Nat` subtraction), and the written line is returned together
with `proz` and `done`. -/
def update_file_bar (curr_pos max_pos : Nat) (name : String) (leng : Nat) :
    Option (Int × Int × String) :=
  if max_pos = 0 then none
  else
    let proz : Int := pyRound (((curr_pos : Rat) / (max_pos : Rat)) * 100)
    let done : Int := pyRound (((leng : Rat) / 100) * (proz : Rat))
    let inner : String :=
      String.mk (List.replicate done.toNat '>' ++ List.replicate (leng - done.toNat) ' ')
    some (proz, done,
      "\rFlashing " ++ name ++ " - [" ++ inner ++ "] " ++ toString proz ++ "%")

/-- Result of the final blocking read of the `do_file` loop: no frame
raises `AbortFlashing`, a `RETR` payload succeeds, anything else raises
the bare exception. -/
def finalRes (e : Resp) : Except Err Bool :=
  match e with
  | none => Except.error Err.abortFlashing
  | some (f, _) =>
    if retr = f.drop 14 then Except.ok true else Except.error Err.fileNotReceived

/-- Flasher state after the final read of the `do_file` loop: replaced
wholesale on a received frame, otherwise left at its locally incremented
value (both components incremented once per iteration). -/
def finalSt (e : Resp) (st : SState) (k : Nat) : SState :=
  match e with
  | none => (st.1 + k, st.2 + k)
  | some (_, ns) => ns

/-- The full event trace of one successful `Flasher.run` session. -/
def sessionEvs (nName : String) (nBytes : Bytes) (rsc : Option FileRef) : List Ev :=
  [Ev.step offr (some yack), Ev.wr offr, Ev.rd, Ev.rd,
   Ev.step [] (some strt), Ev.wr [], Ev.rd, Ev.rd,
   Ev.step [] (some retr), Ev.wr [], Ev.rd, Ev.rd,
   Ev.step (fileHeader nName nBytes.length) (some retr),
   Ev.wr (fileHeader nName nBytes.length), Ev.rd, Ev.rd]
    ++ chunkEvs nBytes
    ++ [Ev.step [] (some retr), Ev.wr [], Ev.rd, Ev.rd]
    ++ (match rsc with
        | some r =>
          [Ev.step (fileHeader "autorun.scr" r.2.length) (some retr),
           Ev.wr (fileHeader "autorun.scr" r.2.length), Ev.rd, Ev.rd] ++ chunkEvs r.2
        | none => [])
    ++ [Ev.step [] (some retr), Ev.wr [], Ev.rd, Ev.rd,
        Ev.step fileNL (some wtrm), Ev.wr fileNL, Ev.rd, Ev.rd,
        Ev.step termMsg none, Ev.wr termMsg]

/-- The step sequence `Flasher.run` actually performs (the trailing empty
"done" step expecting `RETR` runs whether or not a config file is present,
because it sits outside the `if rsc:` block of `Flasher.do_files`). -/
def actualSteps (nName : String) (nLen : Nat) (rLen : Option Nat) :
    List (Bytes × Option Bytes) :=
  [(offr, some yack), ([], some strt), ([], some retr),
   (fileHeader nName nLen, some retr), ([], some retr)]
    ++ (match rLen with
        | some r => [(fileHeader "autorun.scr" r, some retr)]
        | none => [])
    ++ [([], some retr), (fileNL, some wtrm), (termMsg, none)]

/-- The step sequence claim C1 describes, in which the second empty "done"
step is sent only when a config file is present. -/
def claimedSteps (nName : String) (nLen : Nat) (rLen : Option Nat) :
    List (Bytes × Option Bytes) :=
  [(offr, some yack), ([], some strt), ([], some retr),
   (fileHeader nName nLen, some retr), ([], some retr)]
    ++ (match rLen with
        | some r => [(fileHeader "autorun.scr" r, some retr), ([], some retr)]
        | none => [])
    ++ [(fileNL, some wtrm), (termMsg, none)]

/-- A response frame whose payload (`raw[14:]`) is empty, hence not `RETR`. -/
def badFrame : Bytes := List.replicate 14 0

/-- A session whose firmware transfer ends in a payload-mismatch on the
final confirmation read (the board rejects the transfer). -/
def rejectSess : Sess :=
  ⟨true, true, Except.ok (some ("r.npk", [7]), none),
   [none, retrAck, none, retrAck, none, retrAck, none, retrAck, none,
    some (badFrame, (0, 0))], 1⟩

/-- A session whose transport never delivers any frame (empty script):
the offer step receives no response. -/
def abortSess : Sess :=
  ⟨true, true, Except.ok (some ("r.npk", [7]), none), [], 1⟩

/-- A session whose `Flasher` construction fails with `FatalError`. -/
def fatalSess : Sess := ⟨true, false, Except.ok (none, none), [], 1⟩

/-- A session whose plugin call raises `MissingArgument` (the script
carries the offer, format and spacer steps that precede the plugin call). -/
def pluginFailSess : Sess :=
  ⟨true, true, Except.error Err.missingArgument,
   [none, retrAck, none, retrAck, none, retrAck], 1⟩

/-- Claim C1 as stated: every completed session's step sequence equals the
script in which the second empty "done" step exists only when a config
file is present. -/
def c1_claimed : Prop :=
  ∀ (nName : String) (nBytes : Bytes) (rsc : Option FileRef) (fuel : Nat)
    (st0 : SState),
    (Flasher.run fuel (Except.ok (some (nName, nBytes), rsc))
        ⟨st0, sessionScript nBytes.length (rsc.map fun r => r.2.length), []⟩).1
        = Except.ok () →
    stepEvents (Flasher.run fuel (Except.ok (some (nName, nBytes), rsc))
        ⟨st0, sessionScript nBytes.length (rsc.map fun r => r.2.length), []⟩).2.events
      = claimedSteps nName nBytes.length (rsc.map fun r => r.2.length)

/-- Claim C2 as stated: the transfer loop performs exactly `ceil(S / C)`
chunk sends for every file size `S ≥ 0`. -/
def c2_claimed : Prop :=
  ∀ (file : Bytes) (fuel : Nat) (st ns : SState) (rest : List Resp),
    iters file.length ≤ fuel →
    (wrDatas (do_file fuel file file.length
        ⟨st, List.replicate (iters file.length) none ++ some (retrFrame, ns) :: rest,
         []⟩).2.events).length
      = (file.length + 1023) / 1024

/-- Claim C3 as stated: per transmitted frame only the sent counter is
locally incremented, and a response-awaiting step reads exactly one frame
from the transport. -/
def c3_claimed : Prop :=
  (∀ (data : Bytes) (st : SState) (sc : List Resp) (evs : List Ev),
     (doStep data none ⟨st, sc, evs⟩).2.st = (st.1 + 1, st.2)
       ∨ (doStep data none ⟨st, sc, evs⟩).2.st = (st.1, st.2 + 1))
    ∧ (∀ (data resp : Bytes) (st : SState) (sc : List Resp) (evs : List Ev),
       rdCount (doStep data (some resp) ⟨st, sc, evs⟩).2.events = rdCount evs + 1)

/-- Claim C5 as stated: a rejected transfer is a recoverable
`AbortFlashing` condition, so the continuous runner logs it and proceeds
with the remaining boards. -/
def c5_claimed : Prop :=
  ∀ rest : List Sess,
    flash_until_stopped (rejectSess :: rest) = flash_until_stopped rest

/-- Claim C8 as stated: the progress function computes a percentage for
every `curr_pos` and `max_pos`, including `max_pos = 0`. -/
def c8_claimed : Prop :=
  ∀ (curr max : Nat) (name : String) (leng : Nat),
    ∃ pr, update_file_bar curr max name leng = some pr

/-- Claim C9 as stated: on every exit path of both runner modes the
connection is closed before the runner finishes. -/
def c9_claimed : Prop :=
  (∀ x : Sess, (flash_once x).2 = true)
    ∧ (∀ ss : List Sess, (flash_until_stopped ss).1 ≠ Exit.running →
       (flash_until_stopped ss).2 = true)

/-! Helper lemmas about the embedded operations. -/

theorem doStep_fire (data : Bytes) (st : SState) (sc : List Resp) (evs : List Ev) :
    doStep data none ⟨st, sc, evs⟩
      = (Except.ok (some true),
         ⟨(st.1 + 1, st.2 + 1), sc, evs ++ [Ev.step data none, Ev.wr data]⟩) := by
  simp [doStep, connWrite]

theorem doStep_ack (data resp : Bytes) (st : SState) (e1 : Resp) (f : Bytes)
    (ns : SState) (rest : List Resp) (evs : List Ev) :
    doStep data (some resp) ⟨st, e1 :: some (f, ns) :: rest, evs⟩
      = (Except.ok (if resp = f.drop 14 then some true else none),
         ⟨ns, rest,
          evs ++ [Ev.step data (some resp), Ev.wr data, Ev.rd, Ev.rd]⟩) := by
  simp only [doStep, connWrite, connRead]
  split <;> simp_all

theorem doStep_timeout (data resp : Bytes) (st : SState) (e1 : Resp)
    (rest : List Resp) (evs : List Ev) :
    doStep data (some resp) ⟨st, e1 :: none :: rest, evs⟩
      = (Except.error Err.abortFlashing,
         ⟨(st.1 + 1, st.2 + 1), rest,
          evs ++ [Ev.step data (some resp), Ev.wr data, Ev.rd, Ev.rd]⟩) := by
  simp [doStep, connWrite, connRead]

theorem iters_pos (n : Nat) : 1 ≤ iters n := by
  unfold iters
  split
  · omega
  · omega

theorem iters_of_le (n : Nat) (h : n ≤ 1024) : iters n = 1 := by
  unfold iters
  split
  · rfl
  · omega

theorem iters_of_gt (n : Nat) (h : 1024 < n) : iters n = 1 + iters (n - 1024) := by
  unfold iters
  split
  · omega
  · split
    · omega
    · omega

theorem retrFrame_drop : retrFrame.drop 14 = retr := by decide

theorem stepEvents_append (a b : List Ev) :
    stepEvents (a ++ b) = stepEvents a ++ stepEvents b := by
  simp [stepEvents]

theorem wrDatas_append (a b : List Ev) :
    wrDatas (a ++ b) = wrDatas a ++ wrDatas b := by
  simp [wrDatas]

theorem stepEvents_chunkEvs (file : Bytes) : stepEvents (chunkEvs file) = [] := by
  rw [chunkEvs]
  split
  · rfl
  · show stepEvents ([Ev.wr (file.take 1024), Ev.rd] ++ chunkEvs (file.drop 1024)) = []
    rw [stepEvents_append, stepEvents_chunkEvs (file.drop 1024)]
    rfl
termination_by file.length
decreasing_by simp; omega

theorem wrDatas_chunkEvs_length (file : Bytes) :
    (wrDatas (chunkEvs file)).length = iters file.length := by
  rw [chunkEvs]
  split
  · rw [iters_of_le _ (by omega)]
    rfl
  · rename_i h
    show (wrDatas ([Ev.wr (file.take 1024), Ev.rd] ++ chunkEvs (file.drop 1024))).length
        = iters file.length
    rw [wrDatas_append, iters_of_gt _ (by omega)]
    have ih := wrDatas_chunkEvs_length (file.drop 1024)
    simp [wrDatas] at ih ⊢
    omega
termination_by file.length
decreasing_by simp; omega

theorem wrDatas_chunkEvs_sum (file : Bytes) :
    ((wrDatas (chunkEvs file)).map List.length).sum = file.length := by
  rw [chunkEvs]
  split
  · simp [wrDatas]
  · rename_i h
    show (((wrDatas ([Ev.wr (file.take 1024), Ev.rd] ++ chunkEvs (file.drop 1024))).map
        List.length).sum) = file.length
    rw [wrDatas_append]
    have ih := wrDatas_chunkEvs_sum (file.drop 1024)
    simp [wrDatas] at ih ⊢
    omega
termination_by file.length
decreasing_by simp; omega

/-- One `do_file` loop run on a file whose byte count matches the distance
from `file_pos` to the declared size, against a transport script of one
drain answer per iteration followed by an arbitrary final read result `e`:
the loop performs exactly the chunk events, consumes exactly the scripted
reads, and ends according to the final read. -/
theorem doFileLoop_run (fuel : Nat) :
    ∀ (file : Bytes) (max_pos file_pos : Nat) (st : SState)
      (rest : List Resp) (evs : List Ev) (e : Resp),
      file_pos + file.length = max_pos →
      iters file.length ≤ fuel →
      doFileLoop fuel file max_pos file_pos
        ⟨st, List.replicate (iters file.length) none ++ e :: rest, evs⟩
        = (finalRes e,
           ⟨finalSt e st (iters file.length), rest, evs ++ chunkEvs file⟩) := by
  induction fuel with
  | zero =>
    intro file _ _ _ _ _ _ _ hf
    exact absurd hf (by have := iters_pos file.length; omega)
  | succ fuel ih =>
    intro file max_pos file_pos st rest evs e hpos hfuel
    rw [chunkEvs]
    by_cases h : file.length ≤ 1024
    · rw [if_pos h, iters_of_le _ h]
      have htake : file.take 1024 = file := List.take_of_length_le h
      simp only [doFileLoop, connWrite, connRead, List.replicate,
        List.append_assoc, List.cons_append, List.nil_append, htake]
      have hge : file_pos + file.length ≥ max_pos := by omega
      rw [if_pos hge]
      cases e with
      | none => simp [finalRes, finalSt]
      | some p =>
        obtain ⟨f, ns⟩ := p
        by_cases hm : retr = f.drop 14 <;> simp [finalRes, finalSt, hm]
    · rw [if_neg h, iters_of_gt _ (by omega)]
      rw [iters_of_gt _ (by omega : (1024 : Nat) < file.length)] at hfuel
      have hlen : (file.take 1024).length = 1024 := by
        simp [List.length_take]
        omega
      rw [List.replicate_add, List.replicate_one, List.singleton_append]
      simp only [doFileLoop, connWrite, connRead]
      rw [hlen, if_neg (by omega : ¬ file_pos + 1024 ≥ max_pos)]
      have hdrop : (file.drop 1024).length = file.length - 1024 := by simp
      have hrec := ih (file.drop 1024) max_pos (file_pos + 1024) (st.1 + 1, st.2 + 1)
        rest (evs ++ [Ev.wr (file.take 1024), Ev.rd]) e
        (by rw [hdrop]; omega) (by rw [hdrop]; omega)
      rw [hdrop] at hrec
      simp only [List.append_assoc, List.cons_append, List.nil_append] at hrec ⊢
      rw [hrec]
      cases e with
      | none =>
        simp only [finalRes, finalSt, Prod.mk.injEq, FS.mk.injEq, and_true,
          true_and]
        omega
      | some p => rfl

/-- Specialization of `doFileLoop_run`: a `RETR` confirmation frame makes
the loop succeed with the state replaced wholesale by the frame's state. -/
theorem doFileLoop_ok (fuel : Nat) (file : Bytes) (max_pos file_pos : Nat)
    (st ns : SState) (rest : List Resp) (evs : List Ev)
    (hpos : file_pos + file.length = max_pos)
    (hfuel : iters file.length ≤ fuel) :
    doFileLoop fuel file max_pos file_pos
      ⟨st, List.replicate (iters file.length) none ++ some (retrFrame, ns) :: rest, evs⟩
      = (Except.ok true, ⟨ns, rest, evs ++ chunkEvs file⟩) := by
  have h := doFileLoop_run fuel file max_pos file_pos st rest evs
    (some (retrFrame, ns)) hpos hfuel
  rw [h]
  simp [finalRes, finalSt, retrFrame_drop]

/-- A complete session against the scripted transport: `Flasher.run`
succeeds, consumes the whole script, ends with state `(1, 1)` (both
counters incremented by the fire-and-forget terminate step after the last
wholesale replacement), and produces exactly the session events. -/
theorem run_ok_trace (nName : String) (nBytes : Bytes) (rsc : Option FileRef)
    (fuel : Nat) (st0 : SState) (hn : iters nBytes.length ≤ fuel)
    (hr : ∀ r, rsc = some r → iters r.2.length ≤ fuel) :
    Flasher.run fuel (Except.ok (some (nName, nBytes), rsc))
      ⟨st0, sessionScript nBytes.length (rsc.map fun r => r.2.length), []⟩
      = (Except.ok (), ⟨(1, 1), [], sessionEvs nName nBytes rsc⟩) := by
  cases rsc with
  | none =>
    simp only [Flasher.run, do_files, do_file, chain, sessionScript, fileScript,
      retrAck, doStep_ack, doStep_fire, Option.map, sessionEvs,
      List.append_assoc, List.cons_append, List.nil_append, List.singleton_append]
    rw [doFileLoop_ok fuel nBytes nBytes.length 0 _ _ _ _ (by omega) hn]
    simp only [chain, doStep_ack, doStep_fire, List.append_assoc,
      List.cons_append, List.nil_append]
  | some r =>
    simp only [Flasher.run, do_files, do_file, chain, sessionScript, fileScript,
      retrAck, doStep_ack, doStep_fire, Option.map, sessionEvs,
      List.append_assoc, List.cons_append, List.nil_append, List.singleton_append]
    rw [doFileLoop_ok fuel nBytes nBytes.length 0 _ _ _ _ (by omega) hn]
    simp only [chain, doStep_ack, doStep_fire, List.append_assoc,
      List.cons_append, List.nil_append]
    rw [doFileLoop_ok fuel r.2 r.2.length 0 _ _ _ _ (by omega) (hr r rfl)]
    simp only [chain, doStep_ack, doStep_fire, List.append_assoc,
      List.cons_append, List.nil_append]

/-- A payload-mismatch on the final confirmation read of a file transfer
raises the bare exception, not `AbortFlashing`. -/
theorem do_file_mismatch (file : Bytes) (fuel : Nat) (st ns : SState) (f : Bytes)
    (rest : List Resp) (hfuel : iters file.length ≤ fuel)
    (hne : retr ≠ f.drop 14) :
    (do_file fuel file file.length
        ⟨st, List.replicate (iters file.length) none ++ some (f, ns) :: rest, []⟩).1
      = Except.error Err.fileNotReceived := by
  have h := doFileLoop_run fuel file file.length 0 st rest [] (some (f, ns))
    (by omega) hfuel
  simp only [do_file]
  rw [h]
  simp [finalRes, hne]

/-! The claims. -/

/-- Claim C1 (corrected): as stated the claim fails — the second empty
"done" step expecting `RETR` is executed unconditionally, not only when a
config file is present, so a session without a config file performs one
more step than the claimed script. -/
theorem c1_counterexample : ¬ c1_claimed := by
  intro hcl
  have h := hcl "r.npk" [7] none 1 (0, 0) (by decide)
  exact absurd h (by decide)

/-- Claim C1 (amended): for every session, `Flasher.run` executes the
fixed script in order — OFFER expecting `YACK`, FORMAT (empty) expecting
`STRT`, a spacer (empty) expecting `RETR`, the firmware header and
transfer followed by an empty "done" step expecting `RETR`, if a config
file is present its transfer under the fixed name `autorun.scr`, then one
further empty "done" step expecting `RETR` that runs whether or not a
config file is present, then FINALIZE expecting `WTRM`, then TERMINATE
fire-and-forget; no other sequence of steps occurs. -/
theorem c1_run_script (nName : String) (nBytes : Bytes) (rsc : Option FileRef)
    (fuel : Nat) (st0 : SState) (hn : iters nBytes.length ≤ fuel)
    (hr : ∀ r, rsc = some r → iters r.2.length ≤ fuel) :
    (Flasher.run fuel (Except.ok (some (nName, nBytes), rsc))
        ⟨st0, sessionScript nBytes.length (rsc.map fun r => r.2.length), []⟩).1
        = Except.ok ()
      ∧ stepEvents (Flasher.run fuel (Except.ok (some (nName, nBytes), rsc))
          ⟨st0, sessionScript nBytes.length (rsc.map fun r => r.2.length), []⟩).2.events
        = actualSteps nName nBytes.length (rsc.map fun r => r.2.length) := by
  rw [run_ok_trace nName nBytes rsc fuel st0 hn hr]
  refine ⟨rfl, ?_⟩
  cases rsc <;>
  · simp only [sessionEvs, actualSteps, Option.map, List.append_assoc,
      stepEvents_append, stepEvents_chunkEvs]
    simp [stepEvents]

/-- Witness for `c1_run_script` at a one-byte firmware and no config. -/
theorem c1_run_script_witness :
    iters ([7] : Bytes).length ≤ 1
      ∧ ((Flasher.run 1 (Except.ok (some ("r.npk", [7]), none))
            ⟨(0, 0), sessionScript 1 none, []⟩).1 = Except.ok ()
        ∧ stepEvents (Flasher.run 1 (Except.ok (some ("r.npk", [7]), none))
            ⟨(0, 0), sessionScript 1 none, []⟩).2.events
          = actualSteps "r.npk" 1 none) :=
  ⟨by decide,
   c1_run_script "r.npk" [7] none 1 (0, 0) (by decide) (fun r h => nomatch h)⟩

/-- Claim C2 (corrected): as stated the claim fails at `S = 0` — a
zero-length file still performs one chunk send (of empty data), while
`ceil(0 / 1024) = 0`. -/
theorem c2_counterexample : ¬ c2_claimed := by
  intro hcl
  exact absurd (hcl [] 1 (0, 0) (0, 0) [] (by decide)) (by decide)

/-- Claim C2 (amended): for declared size `S` equal to the file's byte
count and chunk size 1024, the transfer loop performs exactly
`max 1 (ceil(S / 1024))` chunk sends (`ceil(S / 1024)` for `S ≥ 1`, one
empty send for `S = 0`), the cumulative bytes sent when the loop exits
equal `S` exactly, and a final chunk shorter than 1024 still triggers the
completion branch because the boundary check compares cumulative bytes
against the declared size. -/
theorem c2_chunk_transfer (file : Bytes) (fuel : Nat) (st ns : SState)
    (rest : List Resp) (hfuel : iters file.length ≤ fuel) :
    do_file fuel file file.length
        ⟨st, List.replicate (iters file.length) none ++ some (retrFrame, ns) :: rest,
         []⟩
        = (Except.ok true, ⟨ns, rest, chunkEvs file⟩)
      ∧ (wrDatas (chunkEvs file)).length = iters file.length
      ∧ ((wrDatas (chunkEvs file)).map List.length).sum = file.length
      ∧ (1 ≤ file.length → iters file.length = (file.length + 1023) / 1024)
      ∧ iters 0 = 1 := by
  refine ⟨?_, wrDatas_chunkEvs_length file, wrDatas_chunkEvs_sum file, ?_, rfl⟩
  · have h := doFileLoop_ok fuel file file.length 0 st ns rest [] (by omega) hfuel
    simpa [do_file] using h
  · intro h1
    unfold iters
    rw [if_neg (by omega)]

/-- Witness for `c2_chunk_transfer` on a three-byte file. -/
theorem c2_chunk_transfer_witness :
    iters ([1, 2, 3] : Bytes).length ≤ 1
      ∧ (do_file 1 [1, 2, 3] 3 ⟨(0, 0), [none, some (retrFrame, (5, 6))], []⟩).1
        = Except.ok true :=
  ⟨by decide,
   congrArg Prod.fst (c2_chunk_transfer [1, 2, 3] 1 (0, 0) (5, 6) [] (by decide)).1⟩

/-- Claim C3 (corrected): as stated the claim fails — each transmitted
frame locally increments both components of the state pair (`state[1]`
before the write, `state[0]` after it), not only a sent counter, and a
response-awaiting step reads two frames from the transport (the `wait()`
drain read plus the response read), not exactly one. -/
theorem c3_counterexample : ¬ c3_claimed := by
  intro h
  exact absurd (h.1 [] (0, 0) [] []) (by decide)

/-- Claim C3 (amended): the counter pair is reset to `(0, 0)` at session
start (`Flasher.run` behaves identically for every initial state pair);
every transmitted frame locally increments both counters exactly once
each; and every step that awaits a response performs two transport reads —
one discarded drain read and one response read — after which the state
pair is replaced wholesale by the value embedded in the response frame
rather than locally derived. -/
theorem c3_session_state :
    (∀ (fuel : Nat) (files : Except Err (Option FileRef × Option FileRef))
       (st0 : SState) (sc : List Resp) (evs : List Ev),
       Flasher.run fuel files ⟨st0, sc, evs⟩ = Flasher.run fuel files ⟨(0, 0), sc, evs⟩)
      ∧ (∀ (data : Bytes) (st : SState) (sc : List Resp) (evs : List Ev),
         doStep data none ⟨st, sc, evs⟩
           = (Except.ok (some true),
              ⟨(st.1 + 1, st.2 + 1), sc, evs ++ [Ev.step data none, Ev.wr data]⟩))
      ∧ (∀ (data resp : Bytes) (st : SState) (e1 : Resp) (f : Bytes) (ns : SState)
           (rest : List Resp) (evs : List Ev),
         doStep data (some resp) ⟨st, e1 :: some (f, ns) :: rest, evs⟩
           = (Except.ok (if resp = f.drop 14 then some true else none),
              ⟨ns, rest, evs ++ [Ev.step data (some resp), Ev.wr data, Ev.rd, Ev.rd]⟩)) :=
  ⟨fun _ _ _ _ _ => rfl, doStep_fire, doStep_ack⟩

/-- Claim C4 (confirmed): a received response frame whose payload differs
from the expected acknowledgment token does not raise a failure in the
steps driven by `Flasher.do` — the step returns without exception (Python
`None`) and the session proceeds — while the final chunk confirmation in
`Flasher.do_file` does raise on mismatch. -/
theorem c4_mismatch_not_asserted :
    (∀ (data resp : Bytes) (st : SState) (e1 : Resp) (f : Bytes) (ns : SState)
       (rest : List Resp) (evs : List Ev), resp ≠ f.drop 14 →
       (doStep data (some resp) ⟨st, e1 :: some (f, ns) :: rest, evs⟩).1
         = Except.ok none)
      ∧ (∀ (file : Bytes) (fuel : Nat) (st ns : SState) (f : Bytes)
           (rest : List Resp), iters file.length ≤ fuel → retr ≠ f.drop 14 →
         (do_file fuel file file.length
             ⟨st, List.replicate (iters file.length) none ++ some (f, ns) :: rest,
              []⟩).1
           = Except.error Err.fileNotReceived) := by
  constructor
  · intro data resp st e1 f ns rest evs hne
    rw [doStep_ack]
    simp [hne]
  · intro file fuel st ns f rest hfuel hne
    exact do_file_mismatch file fuel st ns f rest hfuel hne

/-- Witness for `c4_mismatch_not_asserted`: the offer step accepts a
`RETR` payload in place of `YACK\n` without raising, and a file transfer
confirmed with an empty payload raises the bare exception. -/
theorem c4_mismatch_not_asserted_witness :
    (yack ≠ retrFrame.drop 14
       ∧ (doStep offr (some yack) ⟨(0, 0), [none, some (retrFrame, (1, 2))], []⟩).1
         = Except.ok none)
      ∧ (retr ≠ badFrame.drop 14
       ∧ (do_file 1 [9] 1 ⟨(0, 0), [none, some (badFrame, (0, 0))], []⟩).1
         = Except.error Err.fileNotReceived) :=
  ⟨⟨by decide,
    c4_mismatch_not_asserted.1 offr yack (0, 0) none retrFrame (1, 2) [] [] (by decide)⟩,
   ⟨by decide,
    c4_mismatch_not_asserted.2 [9] 1 (0, 0) (0, 0) badFrame [] (by decide) (by decide)⟩⟩

/-- Claim C5 (corrected): as stated the claim fails — the rejected
transfer raises the bare Python `Exception`, not `AbortFlashing`, so
`flash_until_stopped` does not catch it and terminates instead of
proceeding to the next board. -/
theorem c5_counterexample : ¬ c5_claimed := by
  intro h
  exact absurd (h []) (by decide)

/-- Claim C5 (amended): when, after cumulative bytes reach the declared
size, the one further blocking read yields a payload other than `RETR`,
the transfer fails hard — but with the bare `Exception`
("File was not received properly"), which is not `AbortFlashing`; the
continuous runner therefore does not recover: the exception propagates,
the runner terminates (closing the connection in its `finally`), and the
remaining boards are not processed. -/
theorem c5_rejected_transfer :
    (∀ (file : Bytes) (fuel : Nat) (st ns : SState) (f : Bytes)
       (rest : List Resp), iters file.length ≤ fuel → retr ≠ f.drop 14 →
       (do_file fuel file file.length
           ⟨st, List.replicate (iters file.length) none ++ some (f, ns) :: rest,
            []⟩).1
         = Except.error Err.fileNotReceived)
      ∧ Err.fileNotReceived ≠ Err.abortFlashing
      ∧ (∀ rest : List Sess,
         flash_until_stopped (rejectSess :: rest)
           = (Exit.uncaught Err.fileNotReceived, true)) := by
  refine ⟨fun file fuel st ns f rest hfuel hne =>
    do_file_mismatch file fuel st ns f rest hfuel hne, by decide, ?_⟩
  intro rest
  have h : runSess rejectSess = Except.error Err.fileNotReceived := by decide
  simp [flash_until_stopped, h]

/-- Witness for `c5_rejected_transfer` on a one-byte file and an empty
confirmation payload. -/
theorem c5_rejected_transfer_witness :
    (iters ([9] : Bytes).length ≤ 1 ∧ retr ≠ badFrame.drop 14)
      ∧ (do_file 1 [9] 1 ⟨(3, 4), [none, some (badFrame, (0, 0))], []⟩).1
        = Except.error Err.fileNotReceived :=
  ⟨⟨by decide, by decide⟩,
   c5_rejected_transfer.1 [9] 1 (3, 4) (0, 0) badFrame [] (by decide) (by decide)⟩

/-- Claim C6 (confirmed): for every step that awaits a response, a
transport read reporting no frame raises `AbortFlashing` — in
`Flasher.do`, in the final confirmation read of `Flasher.do_file` — and
`flash_until_stopped` catches `AbortFlashing` and continues with the
remaining boards. -/
theorem c6_no_response :
    (∀ (data resp : Bytes) (st : SState) (e1 : Resp) (rest : List Resp)
       (evs : List Ev),
       (doStep data (some resp) ⟨st, e1 :: none :: rest, evs⟩).1
         = Except.error Err.abortFlashing)
      ∧ (∀ (file : Bytes) (fuel : Nat) (st : SState) (rest : List Resp),
         iters file.length ≤ fuel →
         (do_file fuel file file.length
             ⟨st, List.replicate (iters file.length) none ++ none :: rest, []⟩).1
           = Except.error Err.abortFlashing)
      ∧ (∀ rest : List Sess,
         flash_until_stopped (abortSess :: rest) = flash_until_stopped rest) := by
  refine ⟨?_, ?_, ?_⟩
  · intro data resp st e1 rest evs
    rw [doStep_timeout]
  · intro file fuel st rest hfuel
    have h := doFileLoop_run fuel file file.length 0 st rest [] none (by omega) hfuel
    simp only [do_file]
    rw [h]
    rfl
  · intro rest
    have h : runSess abortSess = Except.error Err.abortFlashing := by decide
    simp [flash_until_stopped, h]

/-- Witness for `c6_no_response` on a one-byte file whose confirmation
read yields no frame. -/
theorem c6_no_response_witness :
    iters ([9] : Bytes).length ≤ 1
      ∧ (do_file 1 [9] 1 ⟨(0, 0), [none, none], []⟩).1
        = Except.error Err.abortFlashing :=
  ⟨by decide, c6_no_response.2.1 [9] 1 (0, 0) [] (by decide)⟩

/-- Claim C7 (confirmed): for every received raw frame, decoding fails
with `MalformedFrame` if and only if the frame is shorter than 14 bytes,
and for frames of at least 14 bytes the decoded state is `raw[10:14]` and
the decoded payload is `raw[14:]`. -/
theorem c7_decode (x : Bytes) :
    (decode x = Except.error Err.malformedFrame ↔ x.length < 14)
      ∧ (14 ≤ x.length →
         decode x = Except.ok ((x.drop 10).take 4, x.drop 14)) := by
  constructor
  · constructor
    · intro h
      by_contra hlen
      simp [decode, hlen] at h
    · intro h
      simp [decode, h]
  · intro h
    simp [decode, Nat.not_lt.mpr h]

/-- Witness for `c7_decode` at the generic 18-byte `RETR` frame. -/
theorem c7_decode_witness :
    14 ≤ (retrFrame : Bytes).length
      ∧ decode retrFrame
        = Except.ok (((retrFrame : Bytes).drop 10).take 4, (retrFrame : Bytes).drop 14) :=
  ⟨by decide, (c7_decode retrFrame).2 (by decide)⟩

/-- Claim C8 (corrected): as stated the claim fails — `update_file_bar`
divides `curr_pos` by `max_pos` with no guard, so `max_pos = 0` raises
`ZeroDivisionError` instead of computing a percentage. -/
theorem c8_counterexample : ¬ c8_claimed := by
  intro h
  obtain ⟨pr, hpr⟩ := h 0 0 "firmware.npk" 50
  simp [update_file_bar] at hpr

/-- Claim C8 (amended): a zero-length file completes the transfer loop on
its first iteration without raising (the progress-bar call in the loop is
commented out in the source), and `update_file_bar` computes a percentage
exactly when `max_pos ≠ 0`; at `max_pos = 0` it raises `ZeroDivisionError`
(there is no 0/0-as-100% guard). -/
theorem c8_zero_length :
    (∀ (st : SState) (e1 : Resp) (f : Bytes) (ns : SState) (rest : List Resp)
       (evs : List Ev), retr = f.drop 14 →
       do_file 1 [] 0 ⟨st, e1 :: some (f, ns) :: rest, evs⟩
         = (Except.ok true, ⟨ns, rest, evs ++ [Ev.wr [], Ev.rd, Ev.rd]⟩))
      ∧ (∀ (curr : Nat) (name : String) (leng : Nat),
         update_file_bar curr 0 name leng = none)
      ∧ (∀ (curr max : Nat) (name : String) (leng : Nat), max ≠ 0 →
         (update_file_bar curr max name leng).isSome) := by
  refine ⟨?_, ?_, ?_⟩
  · intro st e1 f ns rest evs hm
    simp only [do_file, doFileLoop, connWrite, connRead, List.take_nil,
      List.length_nil, List.append_assoc, List.cons_append, List.nil_append]
    rw [if_pos (by omega : 0 + 0 ≥ 0), if_pos hm]
  · intro curr name leng
    simp [update_file_bar]
  · intro curr max name leng h
    simp [update_file_bar, h]

/-- Witness for `c8_zero_length`: a zero-length transfer confirmed by the
generic `RETR` frame, and the bar at 25 of 50 bytes. -/
theorem c8_zero_length_witness :
    (retr = retrFrame.drop 14
       ∧ do_file 1 [] 0 ⟨(0, 0), [none, some (retrFrame, (2, 3))], []⟩
         = (Except.ok true, ⟨(2, 3), [], [Ev.wr [], Ev.rd, Ev.rd]⟩))
      ∧ ((50 : Nat) ≠ 0 ∧ (update_file_bar 25 50 "x" 50).isSome) :=
  ⟨⟨by decide, c8_zero_length.1 (0, 0) none retrFrame (2, 3) [] [] (by decide)⟩,
   ⟨by decide, c8_zero_length.2.2 25 50 "x" 50 (by decide)⟩⟩

/-- Claim C9 (corrected): as stated the claim fails — `flash_once` has no
`try/finally`, so on a per-session failure (for instance a session whose
transport never answers) the connection is not closed before the runner
finishes. -/
theorem c9_counterexample : ¬ c9_claimed := by
  intro h
  exact absurd (h.1 abortSess) (by decide)

/-- Claim C9 (amended): `flash_until_stopped` closes the connection in its
`finally` on every exit path (fatal configuration error and uncaught
exception alike), but `flash_once` closes it only on its success path —
its close call is reached exactly when construction and the session both
succeed. -/
theorem c9_close :
    (∀ ss : List Sess, (flash_until_stopped ss).1 ≠ Exit.running →
       (flash_until_stopped ss).2 = true)
      ∧ (∀ x : Sess, (flash_once x).2 = true ↔ (flash_once x).1 = Except.ok ()) := by
  constructor
  · intro ss
    induction ss with
    | nil =>
      intro h
      simp [flash_until_stopped] at h
    | cons x rest ih =>
      intro h
      cases hx : runSess x with
      | ok u =>
        simp only [flash_until_stopped, hx] at h ⊢
        exact ih h
      | error e =>
        cases e <;>
          first
            | (simp only [flash_until_stopped, hx] at h ⊢; exact ih h)
            | simp only [flash_until_stopped, hx]
  · intro x
    unfold flash_once
    split
    · simp
    · simp

/-- Witness for `c9_close` at a session whose configuration loading fails. -/
theorem c9_close_witness :
    (flash_until_stopped [fatalSess]).1 ≠ Exit.running
      ∧ (flash_until_stopped [fatalSess]).2 = true :=
  ⟨by decide, c9_close.1 [fatalSess] (by decide)⟩

/-- Claim C10 (confirmed): the bundled default plugin never returns an
absent config reference (a successful call returns exactly the configured
firmware and config paths), an empty firmware or config value raises
`MissingArgument`, a configured path that does not exist raises
`FileExistsError`, neither exception is `AbortFlashing` or `FatalError`,
and such a failure during a session escapes `flash_until_stopped`'s
per-session recovery: the loop terminates instead of logging and
skipping. -/
theorem c10_plugin :
    (∀ (fsys : List String) (firmw conf : String) (r : String × String),
       get_files fsys firmw conf = Except.ok r → r = (firmw, conf))
      ∧ (∀ (fsys : List String) (conf : String),
         get_files fsys "" conf = Except.error Err.missingArgument)
      ∧ (∀ (fsys : List String) (firmw : String), firmw ≠ "" → firmw ∈ fsys →
         get_files fsys firmw "" = Except.error Err.missingArgument)
      ∧ (∀ (fsys : List String) (firmw conf : String), firmw ≠ "" →
         firmw ∉ fsys →
         get_files fsys firmw conf = Except.error Err.fileExistsError)
      ∧ (∀ (fsys : List String) (firmw conf : String), firmw ≠ "" →
         firmw ∈ fsys → conf ≠ "" → conf ∉ fsys →
         get_files fsys firmw conf = Except.error Err.fileExistsError)
      ∧ Err.missingArgument ≠ Err.abortFlashing
      ∧ Err.missingArgument ≠ Err.fatalError
      ∧ Err.fileExistsError ≠ Err.abortFlashing
      ∧ Err.fileExistsError ≠ Err.fatalError
      ∧ (∀ rest : List Sess,
         flash_until_stopped (pluginFailSess :: rest)
           = (Exit.uncaught Err.missingArgument, true)) := by
  refine ⟨?_, ?_, ?_, ?_, ?_, by decide, by decide, by decide, by decide, ?_⟩
  · intro fsys firmw conf r h
    unfold get_files at h
    split_ifs at h with h1 h2 h3 h4
    all_goals simp_all
  · intro fsys conf
    simp [get_files]
  · intro fsys firmw h1 h2
    simp [get_files, h1, h2]
  · intro fsys firmw conf h1 h2
    simp [get_files, h1, h2]
  · intro fsys firmw conf h1 h2 h3 h4
    simp [get_files, h1, h2, h3, h4]
  · intro rest
    have h : runSess pluginFailSess = Except.error Err.missingArgument := by decide
    simp [flash_until_stopped, h]

/-- Witness for `c10_plugin`: a configured firmware path that exists on an
empty filesystem does not, so the plugin raises `FileExistsError`. -/
theorem c10_plugin_witness :
    ("os.npk" ≠ "" ∧ "os.npk" ∉ ([] : List String))
      ∧ get_files [] "os.npk" "cfg.rsc" = Except.error Err.fileExistsError :=
  ⟨⟨by decide, by decide⟩,
   c10_plugin.2.2.2.1 [] "os.npk" "cfg.rsc" (by decide) (by decide)⟩
